import Mathlib

/-!
Verification development for the "bearly" task-reminder application.

The embedding below translates the application core from the two source
files (`src/types.ts` and the service/App component file) into Lean:
the task data model, the scheduler tick, the user-event handlers, the
gamification counter and the persistence snapshot.  Presentation-only
state (text inputs other than the help field, audio, voice capture,
delete-confirmation id, decompose spinner) carries no task logic and is
omitted.  JavaScript timestamps (`Date.now()`) are modelled as a `now :
Nat` parameter; each handler receives the single instant at which it
runs.  Calls to the remote generative-AI service are modelled by an
explicit outcome argument describing what the remote call produced.
-/

namespace Bearly

/-- The six lifecycle states from `src/types.ts` (`enum TaskStatus`). -/
inductive TaskStatus where
  | PENDING
  | COUNTDOWN
  | WAITING_FOR_START_CONFIRMATION
  | WAITING_FOR_COMPLETION
  | BLOCKED
  | COMPLETED
deriving DecidableEq, Repr

/-- The `Task` record from `src/types.ts`. -/
structure Task where
  id : Nat
  title : String
  scheduledTime : Nat
  status : TaskStatus
  retryCount : Nat
  lastActionTime : Nat
  category : Option String := none
  priority : Option Nat := none
  imageUrl : Option String := none
  isParsing : Bool := false
  isImageLoading : Bool := false
  modalDismissed : Bool := false
deriving DecidableEq, Repr

/-- Result shape of `GeminiService.parseTaskInput`. -/
structure Parsed where
  title : String
  minutesFromNow : Nat
  timeSpecified : Bool
deriving DecidableEq, Repr

/-- Outcome of the remote `generateContent` call made by `parseTaskInput`,
together with what `JSON.parse` does to the response text:
the request itself may reject (`requestError`); a fulfilled response may
carry an empty/absent `text` (so the hard-coded default JSON string is
parsed instead), a text that is not valid JSON (`JSON.parse` throws), or
a text that parses to a `Parsed` value. -/
inductive AIOutcome where
  | requestError
  | emptyText
  | malformedText
  | parsedText (p : Parsed)
deriving DecidableEq, Repr

/-- `GeminiService.parseTaskInput`.  The `generateContent` request sits
OUTSIDE the try block, so a rejected request propagates to the caller
(modelled as `Except.error`).  Only `JSON.parse` is guarded: an invalid
response text falls back to `{title: input, minutesFromNow: 0,
timeSpecified: false}`, while an empty `response.text` makes
`JSON.parse` read the hard-coded default string, yielding the title
"Untitled Task". -/
def parseTaskInput (input : String) : AIOutcome → Except Unit Parsed
  | AIOutcome.requestError => Except.error ()
  | AIOutcome.emptyText => Except.ok { title := "Untitled Task", minutesFromNow := 0, timeSpecified := false }
  | AIOutcome.malformedText => Except.ok { title := input, minutesFromNow := 0, timeSpecified := false }
  | AIOutcome.parsedText p => Except.ok p

/-- The reactive application state held by the `App` component: the task
store, the active-modal slot, the scheduling prompt, the celebration
flag, the decompose prompt, the stats triple and the help-text input. -/
structure AppState where
  tasks : List Task
  activeTask : Option Task
  schedulingTask : Option (Nat × String)
  celebrationActive : Bool
  showDecomposePrompt : Bool
  xp : Nat
  level : Nat
  streak : Nat
  helpText : String
deriving DecidableEq, Repr

/-- The state at mount: empty store, no modal, stats `0 / 1 / 0`. -/
def initialState : AppState :=
  { tasks := [], activeTask := none, schedulingTask := none,
    celebrationActive := false, showDecomposePrompt := false,
    xp := 0, level := 1, streak := 0, helpText := "" }

/-- Map over the store, rewriting only the task with the given id
(the `current.map(t => t.id === id ? ... : t)` pattern). -/
def updById (i : Nat) (g : Task → Task) (l : List Task) : List Task :=
  l.map fun t => if t.id = i then g t else t

/-- `updateTaskStatus(id, updates)`: applies the partial update `f` and
stamps `lastActionTime := now` on the matching task, both in the store
and in the active-modal copy. -/
def updateTaskStatus (s : AppState) (i : Nat) (f : Task → Task) (now : Nat) : AppState :=
  { s with
    tasks := updById i (fun t => { f t with lastActionTime := now }) s.tasks,
    activeTask := s.activeTask.map fun p =>
      if p.id = i then { f p with lastActionTime := now } else p }

/-- `triggerCelebration`: shows the banner, awards 25 xp with wrap at
100 (carrying into `level`), and increments the streak. -/
def triggerCelebration (s : AppState) : AppState :=
  let nextXp := s.xp + 25
  if 100 ≤ nextXp then
    { s with celebrationActive := true, xp := nextXp - 100,
             level := s.level + 1, streak := s.streak + 1 }
  else
    { s with celebrationActive := true, xp := nextXp, streak := s.streak + 1 }

/-- The 4-second timeout scheduled by `triggerCelebration` firing:
`setCelebration({active: false, ...})`. -/
def celebrationEnd (s : AppState) : AppState :=
  { s with celebrationActive := false }

/-- `handleInitialTrigger(task)`: a no-op when the task's reminder lies
beyond the one-year sentinel horizon; otherwise opens the modal on the
task and moves it to COUNTDOWN with a 15-second window. -/
def handleInitialTrigger (s : AppState) (task : Task) (now : Nat) : AppState :=
  if now + 31536000000 < task.scheduledTime then s
  else
    updateTaskStatus { s with activeTask := some task } task.id
      (fun t => { t with status := TaskStatus.COUNTDOWN, scheduledTime := now + 15000 }) now

/-- `addTask(rawInput, customTime?)`: append a provisional PENDING task
with the far-future sentinel, then run the parse.  A rejected parse
(`generateContent` outside the try) aborts the rest of the function.  On
success: open the scheduling prompt when no time was specified and no
`customTime` was passed; compute the schedule (`customTime` wins, else
the parsed minutes, else the sentinel); rewrite title/schedule and clear
`isParsing`; finally attach the generated image (if any) and clear
`isImageLoading`. -/
def addTask (s : AppState) (rawInput : String) (customTime : Option Nat) (newId : Nat)
    (ai : AIOutcome) (img : Option String) (now : Nat) : AppState :=
  let newTask : Task :=
    { id := newId, title := rawInput, scheduledTime := now + 999999999999,
      status := TaskStatus.PENDING, retryCount := 0, lastActionTime := now,
      category := none, priority := none, imageUrl := none,
      isParsing := true, isImageLoading := true, modalDismissed := false }
  let s1 : AppState := { s with tasks := s.tasks ++ [newTask] }
  match parseTaskInput rawInput ai with
  | Except.error _ => s1
  | Except.ok parsed =>
    let s2 : AppState :=
      if !parsed.timeSpecified && customTime.isNone
      then { s1 with schedulingTask := some (newId, parsed.title) } else s1
    let sched : Nat :=
      match customTime with
      | some ct => now + ct
      | none =>
        if parsed.timeSpecified then now + parsed.minutesFromNow * 60000
        else now + 999999999999
    let tasks3 := updById newId
      (fun t => { t with title := parsed.title, scheduledTime := sched, isParsing := false })
      s2.tasks
    let s3 : AppState := { s2 with tasks := tasks3 }
    let tasks4 := updById newId
      (fun t => { t with imageUrl := img, isImageLoading := false })
      s3.tasks
    { s3 with tasks := tasks4 }

/-- `setTaskSchedule(minutes | null)`: resolves the scheduling prompt;
`null` ("queue only") uses the larger no-reminder sentinel. -/
def setTaskSchedule (s : AppState) (minutes : Option Nat) (now : Nat) : AppState :=
  match s.schedulingTask with
  | none => s
  | some st =>
    let time := match minutes with
      | none => now + 3153600000000
      | some m => now + m * 60000
    { s with tasks := updById st.1 (fun t => { t with scheduledTime := time }) s.tasks,
             schedulingTask := none }

/-- `handleCustomSchedule` with a valid picked timestamp (an invalid
date/time alerts and returns without mutating state, i.e. is the
identity on this model). -/
def handleCustomSchedule (s : AppState) (time : Nat) : AppState :=
  match s.schedulingTask with
  | none => s
  | some st =>
    { s with tasks := updById st.1 (fun t => { t with scheduledTime := time }) s.tasks,
             schedulingTask := none }

/-- `onConfirmStart(task, started)`: "yes" celebrates and moves the task
to WAITING_FOR_COMPLETION with a 10-minute window, closing the modal;
"no" resets the streak and escalates along the retryCount ladder
(0 gives a fresh 15-second COUNTDOWN with retryCount 1, 1 gives PENDING
with retryCount 2 and a 60-second delay, otherwise BLOCKED with the
modal kept open on the blocked task). -/
def onConfirmStart (s : AppState) (task : Task) (started : Bool) (now : Nat) : AppState :=
  if started then
    let s1 := triggerCelebration s
    let s2 := updateTaskStatus s1 task.id
      (fun t => { t with status := TaskStatus.WAITING_FOR_COMPLETION,
                         scheduledTime := now + 10 * 60000, modalDismissed := false }) now
    { s2 with activeTask := none }
  else
    let s0 := { s with streak := 0 }
    if task.retryCount = 0 then
      let s1 := if !s0.showDecomposePrompt then { s0 with showDecomposePrompt := true } else s0
      updateTaskStatus s1 task.id
        (fun t => { t with retryCount := 1, status := TaskStatus.COUNTDOWN,
                           scheduledTime := now + 15000 }) now
    else if task.retryCount = 1 then
      let s1 := updateTaskStatus s0 task.id
        (fun t => { t with status := TaskStatus.PENDING, retryCount := 2,
                           scheduledTime := now + 60000 }) now
      { s1 with activeTask := none, showDecomposePrompt := false }
    else
      let s1 := updateTaskStatus s0 task.id
        (fun t => { t with status := TaskStatus.BLOCKED }) now
      { s1 with activeTask := some { task with status := TaskStatus.BLOCKED } }

/-- JavaScript `String.prototype.trim`: strip leading and trailing
whitespace (executable model of the `.trim()` calls in the source). -/
def jsTrim (s : String) : String :=
  String.mk (((s.data.dropWhile Char.isWhitespace).reverse.dropWhile Char.isWhitespace).reverse)

/-- `handleHelpSubmit`: guarded on a non-empty trimmed help text and an
open modal.  Enqueues the suggestion through `addTask(suggestion, 0)`
(so the new task is scheduled at `now + 0`); if that parse rejects the
rest of the handler is skipped; otherwise the original task is reset to
PENDING, rescheduled 5 minutes out with retryCount 0, and the modal
closes. -/
def handleHelpSubmit (s : AppState) (newId : Nat) (ai : AIOutcome) (img : Option String)
    (now : Nat) : AppState :=
  match s.activeTask with
  | none => s
  | some active =>
    if jsTrim s.helpText = "" then s
    else
      let suggestion := jsTrim s.helpText
      let s1 := { s with helpText := "" }
      let s2 := addTask s1 suggestion (some 0) newId ai img now
      match parseTaskInput suggestion ai with
      | Except.error _ => s2
      | Except.ok _ =>
        let s3 := updateTaskStatus s2 active.id
          (fun t => { t with status := TaskStatus.PENDING,
                             scheduledTime := now + 5 * 60000, retryCount := 0 }) now
        { s3 with activeTask := none }

/-- Arguments for one `addTask(subTitle)` call inside `handleDecompose`:
the subtask title plus the fresh id, parse outcome and image produced
for it. -/
structure SubSpec where
  title : String
  newId : Nat
  ai : AIOutcome
  img : Option String
deriving DecidableEq, Repr

/-- The `for (const st of subs) await addTask(st)` loop: sequential
`addTask` calls; a rejected parse rejects the whole loop, skipping the
remaining subtasks (the Bool records whether the loop finished). -/
def runAddTasks (s : AppState) (subs : List SubSpec) (now : Nat) : AppState × Bool :=
  match subs with
  | [] => (s, true)
  | sub :: rest =>
    let s1 := addTask s sub.title none sub.newId sub.ai sub.img now
    match parseTaskInput sub.title sub.ai with
    | Except.error _ => (s1, false)
    | Except.ok _ => runAddTasks s1 rest now

/-- `handleDecompose`: with an open modal and a non-empty decomposition,
remove the original task, enqueue every subtask, and (when the loop
completes) close the modal and the decompose prompt. -/
def handleDecompose (s : AppState) (subs : List SubSpec) (now : Nat) : AppState :=
  match s.activeTask with
  | none => s
  | some active =>
    if subs.isEmpty then s
    else
      match runAddTasks { s with tasks := s.tasks.filter fun t => t.id ≠ active.id } subs now with
      | (s2, true) => { s2 with activeTask := none, showDecomposePrompt := false }
      | (s2, false) => s2

/-- `onConfirmCompletion(task, completed)`: "done" celebrates, filters
the task out of the store and closes the modal; "later" resets the
streak and restarts the initial-trigger flow on the same task. -/
def onConfirmCompletion (s : AppState) (task : Task) (completed : Bool) (now : Nat) : AppState :=
  if completed then
    let s1 := triggerCelebration s
    let s2 := { s1 with tasks := s1.tasks.filter fun t => t.id ≠ task.id }
    { s2 with activeTask := none }
  else
    let s0 := { s with streak := 0 }
    handleInitialTrigger s0 task now

/-- `dismissModal`: marks the active task `modalDismissed` and closes
the modal and decompose prompt without changing its status. -/
def dismissModal (s : AppState) (now : Nat) : AppState :=
  let s1 := match s.activeTask with
    | some a => updateTaskStatus s a.id (fun t => { t with modalDismissed := true }) now
    | none => s
  { s1 with activeTask := none, showDecomposePrompt := false }

/-- `snoozeTask`: re-arms the task as PENDING five minutes out, clears
`modalDismissed`, and closes the modal. -/
def snoozeTask (s : AppState) (task : Task) (now : Nat) : AppState :=
  let s1 := updateTaskStatus s task.id
    (fun t => { t with scheduledTime := now + 5 * 60000, status := TaskStatus.PENDING,
                       modalDismissed := false }) now
  { s1 with activeTask := none, showDecomposePrompt := false }

/-- `removeTask(id)`: explicit deletion from the store. -/
def removeTask (s : AppState) (i : Nat) : AppState :=
  { s with tasks := s.tasks.filter fun t => t.id ≠ i }

/-- Typing into the help-text input (`setHelpText`). -/
def setHelpTextEv (s : AppState) (txt : String) : AppState :=
  { s with helpText := txt }

/-- Due filter for branch 1 of the tick: a PENDING task, not mid-parse,
not dismissed, whose schedule has elapsed. -/
def dueP (now : Nat) (t : Task) : Bool :=
  t.status == TaskStatus.PENDING && !t.isParsing && !t.modalDismissed
    && decide (t.scheduledTime ≤ now)

/-- Due filter for branch 2 of the tick: a due COUNTDOWN task. -/
def dueC (now : Nat) (t : Task) : Bool :=
  t.status == TaskStatus.COUNTDOWN && decide (t.scheduledTime ≤ now)

/-- Due filter for branch 3 of the tick: a due WAITING_FOR_COMPLETION
task. -/
def dueW (now : Nat) (t : Task) : Bool :=
  t.status == TaskStatus.WAITING_FOR_COMPLETION && decide (t.scheduledTime ≤ now)

/-- The COUNTDOWN branch of the tick body: the first due COUNTDOWN task
is moved to WAITING_FOR_START_CONFIRMATION and its modal is opened. -/
def tickC (s : AppState) (now : Nat) : AppState :=
  match s.tasks.find? (dueC now) with
  | some c =>
    let su := updateTaskStatus s c.id
      (fun t => { t with status := TaskStatus.WAITING_FOR_START_CONFIRMATION }) now
    { su with activeTask := some { c with status := TaskStatus.WAITING_FOR_START_CONFIRMATION } }
  | none => s

/-- The COUNTDOWN branch followed by the WAITING_FOR_COMPLETION branch.
The source has no early return between them, so after the COUNTDOWN
branch runs, the completion branch still searches the (pre-tick,
`tasksRef`-snapshotted) store and, when it finds a due task, overwrites
the active modal with it. -/
def tickCW (s : AppState) (now : Nat) : AppState :=
  match s.tasks.find? (dueW now) with
  | some w => { tickC s now with activeTask := some w }
  | none => tickC s now

/-- One iteration of the scheduler interval: gated on no active modal,
no celebration and no scheduling prompt; branch 1 (due PENDING) returns
early via `handleInitialTrigger`; otherwise branches 2 and 3 both
run (`tickCW`). -/
def tick (s : AppState) (now : Nat) : AppState :=
  if s.activeTask.isNone && !s.celebrationActive && s.schedulingTask.isNone then
    match s.tasks.find? (dueP now) with
    | some p => handleInitialTrigger s p now
    | none => tickCW s now
  else s

/-- The two localStorage keys as a snapshot: the stats record is always
written; the task list is written only while non-empty (the key is
removed when the store empties). -/
structure Snapshot where
  tasks : Option (List Task)
  xp : Nat
  level : Nat
  streak : Nat
deriving DecidableEq, Repr

/-- The persistence effect: serialize the stats triple, and the task
list when non-empty. -/
def saveSnapshot (s : AppState) : Snapshot :=
  { tasks := if s.tasks.isEmpty then none else some s.tasks,
    xp := s.xp, level := s.level, streak := s.streak }

/-- The mount-time load effect applied to a state: a present task
snapshot is installed with every `isParsing` forced to `false`; the
stats are installed through JavaScript truthiness defaults
(`xp || 0`, `level || 1`, `streak || 0`). -/
def loadSnapshot (snap : Snapshot) (s : AppState) : AppState :=
  let s1 : AppState := match snap.tasks with
    | some ts => { s with tasks := ts.map (fun (t : Task) => { t with isParsing := false }) }
    | none => s
  { s1 with
    xp := if snap.xp = 0 then 0 else snap.xp,
    level := if snap.level = 0 then 1 else snap.level,
    streak := if snap.streak = 0 then 0 else snap.streak }

/-- Number of tasks currently presented in a blocking modal: the modal
is a single `activeTask` slot. -/
def activeCount (s : AppState) : Nat :=
  match s.activeTask with
  | some _ => 1
  | none => 0

/-- No task in the list carries the COMPLETED status. -/
def noCompleted (l : List Task) : Prop :=
  ∀ t ∈ l, t.status ≠ TaskStatus.COMPLETED

instance (l : List Task) : Decidable (noCompleted l) := by
  unfold noCompleted; infer_instance

/-- One application event, performed on the current state.  Handlers
fired from modal buttons receive the active task, as in the source
(`onConfirmStart(activeTask, ...)`); clicking a task row fires
`handleInitialTrigger` on that row's task. -/
inductive Step : AppState → AppState → Prop where
  | tick (s : AppState) (now : Nat) : Step s (tick s now)
  | add (s : AppState) (raw : String) (customTime : Option Nat) (newId : Nat)
      (ai : AIOutcome) (img : Option String) (now : Nat) :
      Step s (addTask s raw customTime newId ai img now)
  | confirmStart (s : AppState) (a : Task) (started : Bool) (now : Nat)
      (h : s.activeTask = some a) : Step s (onConfirmStart s a started now)
  | confirmCompletion (s : AppState) (a : Task) (completed : Bool) (now : Nat)
      (h : s.activeTask = some a) : Step s (onConfirmCompletion s a completed now)
  | dismiss (s : AppState) (now : Nat) : Step s (dismissModal s now)
  | snooze (s : AppState) (a : Task) (now : Nat)
      (h : s.activeTask = some a) : Step s (snoozeTask s a now)
  | help (s : AppState) (newId : Nat) (ai : AIOutcome) (img : Option String) (now : Nat) :
      Step s (handleHelpSubmit s newId ai img now)
  | decompose (s : AppState) (subs : List SubSpec) (now : Nat) :
      Step s (handleDecompose s subs now)
  | schedule (s : AppState) (minutes : Option Nat) (now : Nat) :
      Step s (setTaskSchedule s minutes now)
  | customSchedule (s : AppState) (time : Nat) : Step s (handleCustomSchedule s time)
  | remove (s : AppState) (i : Nat) : Step s (removeTask s i)
  | setHelp (s : AppState) (txt : String) : Step s (setHelpTextEv s txt)
  | celebEnd (s : AppState) : Step s (celebrationEnd s)
  | click (s : AppState) (t : Task) (now : Nat) (h : t ∈ s.tasks) :
      Step s (handleInitialTrigger s t now)

/-- States reachable from the mount state through application events. -/
inductive Reachable : AppState → Prop where
  | init : Reachable initialState
  | step {s s' : AppState} : Reachable s → Step s s' → Reachable s'

/-! Concrete states used to falsify claims and to instantiate proved
theorems. -/

/-- A COUNTDOWN task whose 15-second window has elapsed. -/
def c1CountTask : Task :=
  { id := 1, title := "write report", scheduledTime := 1000,
    status := TaskStatus.COUNTDOWN, retryCount := 1, lastActionTime := 0 }

/-- A WAITING_FOR_COMPLETION task whose follow-up window has elapsed. -/
def c1WaitTask : Task :=
  { id := 2, title := "laundry", scheduledTime := 1500,
    status := TaskStatus.WAITING_FOR_COMPLETION, retryCount := 0, lastActionTime := 0 }

/-- A state with both of the above due and the interaction gate open. -/
def c1State : AppState := { initialState with tasks := [c1CountTask, c1WaitTask] }

/-- A task sitting in WAITING_FOR_START_CONFIRMATION, modal open. -/
def c3Task : Task :=
  { id := 7, title := "call dentist", scheduledTime := 400,
    status := TaskStatus.WAITING_FOR_START_CONFIRMATION, retryCount := 0, lastActionTime := 300 }

/-- State presenting `c3Task` in the start-confirmation modal. -/
def c3State : AppState :=
  { initialState with tasks := [c3Task], activeTask := some c3Task, streak := 4 }

/-- Stats state at 80 xp, about to cross the level boundary. -/
def c4State : AppState := { initialState with xp := 80, streak := 3 }

/-- A BLOCKED task with a distant previous horizon. -/
def c5Blocked : Task :=
  { id := 1, title := "taxes", scheduledTime := 7777,
    status := TaskStatus.BLOCKED, retryCount := 2, lastActionTime := 0 }

/-- State with the blocked task's help modal open and a suggestion typed. -/
def c5State : AppState :=
  { initialState with tasks := [c5Blocked], activeTask := some c5Blocked,
                      helpText := "drink water" }

/-- A WAITING_FOR_COMPLETION task about to be confirmed done. -/
def c6Task : Task :=
  { id := 3, title := "water plants", scheduledTime := 40,
    status := TaskStatus.WAITING_FOR_COMPLETION, retryCount := 0, lastActionTime := 10 }

/-- A second task that must survive the completion untouched. -/
def c6Other : Task :=
  { id := 4, title := "mail letter", scheduledTime := 90,
    status := TaskStatus.PENDING, retryCount := 0, lastActionTime := 10 }

/-- State at 80 xp holding both tasks, completion modal open. -/
def c6State : AppState :=
  { initialState with tasks := [c6Task, c6Other], activeTask := some c6Task, xp := 80 }

/-- A task persisted in the middle of its parse (`isParsing = true`). -/
def c7ParsingTask : Task :=
  { id := 9, title := "groceries", scheduledTime := 999999999999,
    status := TaskStatus.PENDING, retryCount := 0, lastActionTime := 5, isParsing := true }

/-- A state whose snapshot captures the mid-parse task. -/
def c7BadState : AppState := { initialState with tasks := [c7ParsingTask] }

/-- A fully-parsed state for the amended round-trip. -/
def c7GoodState : AppState :=
  { initialState with tasks := [c6Task, c6Other], xp := 55, level := 3, streak := 2 }

/-- A state whose modal is open, used against the tick gate. -/
def c8State : AppState :=
  { initialState with tasks := [c1CountTask, c1WaitTask], activeTask := some c3Task }

/-- A reachable one-task state: the mount state after one `addTask`
whose parse response was malformed JSON. -/
def c9Demo : AppState :=
  addTask initialState "wash dishes" none 5 AIOutcome.malformedText none 0

/-- A due BLOCKED task that ticks must never advance. -/
def c10Blocked : Task :=
  { id := 6, title := "clean desk", scheduledTime := 100,
    status := TaskStatus.BLOCKED, retryCount := 2, lastActionTime := 50 }

/-- State holding the blocked task (modal open on it) plus a due
COUNTDOWN task, so ticks actually fire transitions around it. -/
def c10State : AppState :=
  { initialState with tasks := [c10Blocked, c1CountTask], activeTask := some c10Blocked }

/-- The record update applied by `onConfirmStart` on "yes". -/
def updYes (now : Nat) (t : Task) : Task :=
  { t with status := TaskStatus.WAITING_FOR_COMPLETION, scheduledTime := now + 10 * 60000,
           modalDismissed := false, lastActionTime := now }

/-- The record update applied by `onConfirmStart` on "no" at retryCount 0. -/
def updNo0 (now : Nat) (t : Task) : Task :=
  { t with retryCount := 1, status := TaskStatus.COUNTDOWN, scheduledTime := now + 15000,
           lastActionTime := now }

/-- The record update applied by `onConfirmStart` on "no" at retryCount 1. -/
def updNo1 (now : Nat) (t : Task) : Task :=
  { t with status := TaskStatus.PENDING, retryCount := 2, scheduledTime := now + 60000,
           lastActionTime := now }

/-- The record update applied by `onConfirmStart` on "no" at retryCount 2+. -/
def updNo2 (now : Nat) (t : Task) : Task :=
  { t with status := TaskStatus.BLOCKED, lastActionTime := now }

/-- The provisional task record appended at the top of `addTask`. -/
def newTaskRec (newId : Nat) (raw : String) (now : Nat) : Task :=
  { id := newId, title := raw, scheduledTime := now + 999999999999,
    status := TaskStatus.PENDING, retryCount := 0, lastActionTime := now,
    category := none, priority := none, imageUrl := none,
    isParsing := true, isImageLoading := true, modalDismissed := false }

/-- The post-parse rewrite `addTask` applies to the new task. -/
def updParse (title : String) (sched : Nat) (t : Task) : Task :=
  { t with title := title, scheduledTime := sched, isParsing := false }

/-- The post-image rewrite `addTask` applies to the new task. -/
def updImage (img : Option String) (t : Task) : Task :=
  { t with imageUrl := img, isImageLoading := false }

/-- The reset `handleHelpSubmit` applies to the original blocked task. -/
def updHelpReset (now : Nat) (t : Task) : Task :=
  { t with status := TaskStatus.PENDING, scheduledTime := now + 5 * 60000, retryCount := 0,
           lastActionTime := now }

/-- The parse result used in the C5 scenario. -/
def c5Parsed : Parsed := { title := "drink water", minutesFromNow := 0, timeSpecified := false }

/-! Helper lemmas about the store combinators. -/

theorem mem_updById_of_ne {l : List Task} {t : Task} {i : Nat} {g : Task → Task}
    (ht : t ∈ l) (hne : t.id ≠ i) : t ∈ updById i g l := by
  refine List.mem_map.2 ⟨t, ht, ?_⟩
  simp [hne]

theorem mem_updById_self {l : List Task} {t : Task} {i : Nat} {g : Task → Task}
    (ht : t ∈ l) (heq : t.id = i) : g t ∈ updById i g l := by
  refine List.mem_map.2 ⟨t, ht, ?_⟩
  simp [heq]

theorem map_id_updById (l : List Task) (i : Nat) (g : Task → Task)
    (hg : ∀ x, (g x).id = x.id) :
    (updById i g l).map Task.id = l.map Task.id := by
  unfold updById
  rw [List.map_map]
  refine List.map_congr_left ?_
  intro a _
  by_cases h : a.id = i <;> simp [Function.comp, h, hg]

theorem updateTaskStatus_tasks (s : AppState) (i : Nat) (f : Task → Task) (now : Nat) :
    (updateTaskStatus s i f now).tasks
      = updById i (fun t => { f t with lastActionTime := now }) s.tasks := rfl

theorem updateTaskStatus_mem_self {s : AppState} {t : Task} {i : Nat} {f : Task → Task}
    {now : Nat} (ht : t ∈ s.tasks) (heq : t.id = i) :
    { f t with lastActionTime := now } ∈ (updateTaskStatus s i f now).tasks :=
  mem_updById_self ht heq

theorem triggerCelebration_tasks (s : AppState) : (triggerCelebration s).tasks = s.tasks := by
  by_cases h : 100 ≤ s.xp + 25 <;> simp [triggerCelebration, h]

theorem triggerCelebration_streak (s : AppState) :
    (triggerCelebration s).streak = s.streak + 1 := by
  by_cases h : 100 ≤ s.xp + 25 <;> simp [triggerCelebration, h]

/-- C1: refuted on the code.  With the gate open, a due COUNTDOWN task
and a due WAITING_FOR_COMPLETION task in the store, a single tick acts
on BOTH: it commits the COUNTDOWN task's transition to
WAITING_FOR_START_CONFIRMATION and then (no early return between the
two branches) also opens the completion modal on the
WAITING_FOR_COMPLETION task, overwriting the modal the COUNTDOWN branch
had just opened.  The claimed priority order ("else a due
WAITING_FOR_COMPLETION task") and the at-most-one-transition-per-tick
guarantee both fail at this input. -/
theorem c1_two_actions_in_one_tick :
    (tick c1State 2000).tasks.map Task.status
        = [TaskStatus.WAITING_FOR_START_CONFIRMATION, TaskStatus.WAITING_FOR_COMPLETION]
    ∧ (tick c1State 2000).activeTask = some c1WaitTask
    ∧ (tick c1State 2000).activeTask
        ≠ some { c1CountTask with status := TaskStatus.WAITING_FOR_START_CONFIRMATION,
                                  lastActionTime := 2000 } := by
  refine ⟨by decide, by decide, by decide⟩

/-- C2: refuted on the code.  In `parseTaskInput` the `generateContent`
request is issued outside the try block, so a failed AI request
propagates the exception to the caller instead of returning the
documented fallback; moreover a fulfilled response with empty text
yields the hard-coded title "Untitled Task", not the raw input. -/
theorem c2_parse_request_failure_propagates :
    parseTaskInput "wash dishes" AIOutcome.requestError = Except.error ()
    ∧ parseTaskInput "wash dishes" AIOutcome.emptyText
        = Except.ok { title := "Untitled Task", minutesFromNow := 0, timeSpecified := false }
    ∧ parseTaskInput "wash dishes" AIOutcome.malformedText
        = Except.ok { title := "wash dishes", minutesFromNow := 0, timeSpecified := false } :=
  ⟨rfl, rfl, rfl⟩

/-- C4: on every celebration (task-completion success event) the streak
rises by exactly 1 and xp rises by exactly 25, wrapping by exactly 100
with a single level increment when the new total reaches 100; from any
starting xp in `[0, 100)` the resulting xp is again in `[0, 100)`. -/
theorem c4_xp_award (s : AppState) (h : s.xp < 100) :
    (triggerCelebration s).streak = s.streak + 1
    ∧ (s.xp + 25 < 100 →
        (triggerCelebration s).xp = s.xp + 25 ∧ (triggerCelebration s).level = s.level)
    ∧ (100 ≤ s.xp + 25 →
        (triggerCelebration s).xp = s.xp + 25 - 100
          ∧ (triggerCelebration s).level = s.level + 1)
    ∧ (triggerCelebration s).xp < 100 := by
  by_cases hc : 100 ≤ s.xp + 25 <;>
    simp [triggerCelebration, hc] <;> omega

/-- C4 witness: the theorem instantiated at the concrete 80-xp state. -/
theorem c4_xp_award_witness :
    c4State.xp < 100
    ∧ (triggerCelebration c4State).streak = c4State.streak + 1
    ∧ (triggerCelebration c4State).xp = c4State.xp + 25 - 100
    ∧ (triggerCelebration c4State).level = c4State.level + 1
    ∧ (triggerCelebration c4State).xp < 100 := by
  have h := c4_xp_award c4State (by decide)
  exact ⟨by decide, h.1, (h.2.2.1 (by decide)).1, (h.2.2.1 (by decide)).2, h.2.2.2⟩

/-- C5 counterexample: submitting the help suggestion "drink water" on
the blocked task schedules the brand-new task at `now` (it is enqueued
through `addTask(suggestion, 0)`), not five minutes out, and reschedules
the original blocked task to `now + 5` minutes instead of keeping its
previous horizon (7777). -/
theorem c5_help_schedule_counterexample :
    (∃ t ∈ (handleHelpSubmit c5State 99
        (AIOutcome.parsedText { title := "drink water", minutesFromNow := 0, timeSpecified := false })
        none 100000).tasks,
      t.id = 99 ∧ t.scheduledTime = 100000)
    ∧ ¬ (∃ t ∈ (handleHelpSubmit c5State 99
        (AIOutcome.parsedText { title := "drink water", minutesFromNow := 0, timeSpecified := false })
        none 100000).tasks,
      t.id = 99 ∧ t.scheduledTime = 100000 + 5 * 60000)
    ∧ (∃ t ∈ (handleHelpSubmit c5State 99
        (AIOutcome.parsedText { title := "drink water", minutesFromNow := 0, timeSpecified := false })
        none 100000).tasks,
      t.id = c5Blocked.id ∧ t.status = TaskStatus.PENDING ∧ t.scheduledTime = 100000 + 5 * 60000)
    ∧ ¬ (∃ t ∈ (handleHelpSubmit c5State 99
        (AIOutcome.parsedText { title := "drink water", minutesFromNow := 0, timeSpecified := false })
        none 100000).tasks,
      t.id = c5Blocked.id ∧ t.scheduledTime = c5Blocked.scheduledTime) := by
  refine ⟨by decide, by decide, by decide, by decide⟩

theorem handleHelpSubmit_tasks_ok (s : AppState) (active : Task) (newId : Nat) (p : Parsed)
    (img : Option String) (now : Nat) (ha : s.activeTask = some active)
    (ht : jsTrim s.helpText ≠ "") :
    (handleHelpSubmit s newId (AIOutcome.parsedText p) img now).tasks
      = updById active.id (updHelpReset now)
          (updById newId (updImage img)
            (updById newId (updParse p.title (now + 0))
              (s.tasks ++ [newTaskRec newId (jsTrim s.helpText) now]))) := by
  obtain ⟨pt, pm, ps⟩ := p
  unfold handleHelpSubmit
  simp only [ha]
  rw [if_neg ht]
  cases ps <;> rfl

/-- C5 amended: submitting a help suggestion on the blocked task
enqueues the suggestion as a brand-new PENDING task scheduled
immediately (`addTask(suggestion, 0)`, so due at `now`), while the
original blocked task is reset to PENDING with retryCount 0 and
rescheduled five minutes out (its previous horizon is discarded). -/
theorem c5_help_submit_amended (s : AppState) (active : Task) (newId : Nat) (p : Parsed)
    (img : Option String) (now : Nat) (ha : s.activeTask = some active)
    (ht : jsTrim s.helpText ≠ "") (hid : active.id ≠ newId) :
    (∃ t' ∈ (handleHelpSubmit s newId (AIOutcome.parsedText p) img now).tasks,
        t'.id = newId ∧ t'.title = p.title ∧ t'.status = TaskStatus.PENDING
          ∧ t'.retryCount = 0 ∧ t'.scheduledTime = now)
    ∧ (∀ t ∈ s.tasks, t.id = active.id →
        ∃ t' ∈ (handleHelpSubmit s newId (AIOutcome.parsedText p) img now).tasks,
          t'.id = active.id ∧ t'.status = TaskStatus.PENDING ∧ t'.retryCount = 0
            ∧ t'.scheduledTime = now + 5 * 60000) := by
  constructor
  · refine ⟨updImage img (updParse p.title (now + 0) (newTaskRec newId (jsTrim s.helpText) now)),
      ?_, rfl, rfl, rfl, rfl, rfl⟩
    rw [handleHelpSubmit_tasks_ok s active newId p img now ha ht]
    refine mem_updById_of_ne ?_ (fun h => hid h.symm)
    refine mem_updById_self ?_ rfl
    refine mem_updById_self ?_ rfl
    exact List.mem_append.2 (Or.inr (List.mem_singleton.2 rfl))
  · intro t htm hteq
    refine ⟨updHelpReset now t, ?_, hteq, rfl, rfl, rfl⟩
    rw [handleHelpSubmit_tasks_ok s active newId p img now ha ht]
    refine mem_updById_self ?_ hteq
    refine mem_updById_of_ne ?_ (by rw [hteq]; exact hid)
    refine mem_updById_of_ne ?_ (by rw [hteq]; exact hid)
    exact List.mem_append.2 (Or.inl htm)

/-- C5 witness: the amended behaviour at the concrete blocked state:
the suggestion lands as task 99 due at `now = 100000`, the original
blocked task is rescheduled to `now + 5` minutes. -/
theorem c5_help_submit_witness :
    (∃ t' ∈ (handleHelpSubmit c5State 99 (AIOutcome.parsedText c5Parsed) none 100000).tasks,
        t'.id = 99 ∧ t'.title = c5Parsed.title ∧ t'.status = TaskStatus.PENDING
          ∧ t'.retryCount = 0 ∧ t'.scheduledTime = 100000)
    ∧ (∃ t' ∈ (handleHelpSubmit c5State 99 (AIOutcome.parsedText c5Parsed) none 100000).tasks,
        t'.id = c5Blocked.id ∧ t'.status = TaskStatus.PENDING ∧ t'.retryCount = 0
          ∧ t'.scheduledTime = 100000 + 5 * 60000) := by
  have h := c5_help_submit_amended c5State c5Blocked 99 c5Parsed none 100000 rfl
    (by decide) (by decide)
  exact ⟨h.1, h.2 c5Blocked (by decide) rfl⟩

/-- C6 counterexample: confirming completion while xp is 80 leaves xp
at 5, so xp is not incremented by exactly 25 (the award wraps into a
level-up). -/
theorem c6_completion_xp_counterexample :
    (onConfirmCompletion c6State c6Task true 50).xp ≠ c6State.xp + 25 := by
  decide

/-- C6 amended: confirming completion removes exactly the confirmed
task from the store (a plain filter, never a soft delete; every other
task survives unchanged), increments the streak by 1, and awards 25 xp
with the §4.5 wrap: below the boundary xp rises by exactly 25, at or
above it xp wraps by 100 and the level rises by exactly 1. -/
theorem c6_confirm_completion_amended (s : AppState) (task : Task) (now : Nat) :
    (onConfirmCompletion s task true now).tasks = s.tasks.filter (fun t => t.id ≠ task.id)
    ∧ (onConfirmCompletion s task true now).streak = s.streak + 1
    ∧ (s.xp + 25 < 100 → (onConfirmCompletion s task true now).xp = s.xp + 25
        ∧ (onConfirmCompletion s task true now).level = s.level)
    ∧ (100 ≤ s.xp + 25 → (onConfirmCompletion s task true now).xp = s.xp + 25 - 100
        ∧ (onConfirmCompletion s task true now).level = s.level + 1) := by
  by_cases hc : 100 ≤ s.xp + 25 <;>
    simp [onConfirmCompletion, triggerCelebration, hc]

/-- C6 witness: the amended theorem instantiated at the 80-xp two-task
state; the confirmed task disappears, the other survives, xp wraps. -/
theorem c6_confirm_completion_witness :
    (onConfirmCompletion c6State c6Task true 50).tasks
        = c6State.tasks.filter (fun t => t.id ≠ c6Task.id)
    ∧ (onConfirmCompletion c6State c6Task true 50).streak = c6State.streak + 1
    ∧ (onConfirmCompletion c6State c6Task true 50).xp = c6State.xp + 25 - 100
    ∧ (onConfirmCompletion c6State c6Task true 50).level = c6State.level + 1 := by
  have h := c6_confirm_completion_amended c6State c6Task 50
  exact ⟨h.1, h.2.1, (h.2.2.2 (by decide)).1, (h.2.2.2 (by decide)).2⟩

/-- C7 counterexample: a well-formed snapshot that captured a task in
the middle of its parse does not round-trip: the load path forces
`isParsing := false`, so the reloaded store differs field-for-field
from the persisted one. -/
theorem c7_roundtrip_counterexample :
    (loadSnapshot (saveSnapshot c7BadState) initialState).tasks ≠ c7BadState.tasks := by
  decide

/-- C7 amended: persisting then reloading the task list and the stats
triple reproduces the state field-for-field provided no persisted task
was mid-parse (the load path unconditionally clears `isParsing`) and
the persisted level is at least 1 (the load path turns a falsy level
into 1; every reachable state satisfies this). -/
theorem c7_roundtrip_amended (s : AppState)
    (hp : ∀ t ∈ s.tasks, t.isParsing = false) (hl : 1 ≤ s.level) :
    (loadSnapshot (saveSnapshot s) initialState).tasks = s.tasks
    ∧ (loadSnapshot (saveSnapshot s) initialState).xp = s.xp
    ∧ (loadSnapshot (saveSnapshot s) initialState).level = s.level
    ∧ (loadSnapshot (saveSnapshot s) initialState).streak = s.streak := by
  have hmap : s.tasks.map (fun (t : Task) => { t with isParsing := false }) = s.tasks := by
    have := List.map_congr_left (l := s.tasks)
      (f := fun (t : Task) => { t with isParsing := false }) (g := id) ?_
    · simpa using this
    · intro a ha
      have := hp a ha
      cases a
      simp_all
  by_cases he : s.tasks.isEmpty
  · have hts : s.tasks = [] := List.isEmpty_iff.1 he
    refine ⟨?_, ?_, ?_, ?_⟩ <;>
      simp [loadSnapshot, saveSnapshot, he, hts, initialState] <;> omega
  · refine ⟨?_, ?_, ?_, ?_⟩ <;>
      simp [loadSnapshot, saveSnapshot, he, hmap] <;> omega

theorem onConfirmStart_tasks_yes (s : AppState) (task : Task) (now : Nat) :
    (onConfirmStart s task true now).tasks = updById task.id (updYes now) s.tasks := by
  show updById task.id (updYes now) (triggerCelebration s).tasks = _
  rw [triggerCelebration_tasks]

theorem onConfirmStart_tasks_no0 (s : AppState) (task : Task) (now : Nat)
    (h0 : task.retryCount = 0) :
    (onConfirmStart s task false now).tasks = updById task.id (updNo0 now) s.tasks := by
  unfold onConfirmStart
  rw [if_neg (by simp), if_pos h0]
  split <;> rfl

theorem onConfirmStart_tasks_no1 (s : AppState) (task : Task) (now : Nat)
    (h1 : task.retryCount = 1) :
    (onConfirmStart s task false now).tasks = updById task.id (updNo1 now) s.tasks := by
  unfold onConfirmStart
  rw [if_neg (by simp), if_neg (by simp [h1]), if_pos h1]
  rfl

theorem onConfirmStart_tasks_no2 (s : AppState) (task : Task) (now : Nat)
    (h2 : 2 ≤ task.retryCount) :
    (onConfirmStart s task false now).tasks = updById task.id (updNo2 now) s.tasks := by
  unfold onConfirmStart
  rw [if_neg (by simp), if_neg (by omega), if_neg (by omega)]
  rfl

theorem onConfirmStart_streak_no (s : AppState) (task : Task) (now : Nat) :
    (onConfirmStart s task false now).streak = 0 := by
  unfold onConfirmStart
  rw [if_neg (by simp)]
  by_cases h0 : task.retryCount = 0
  · rw [if_pos h0]
    split <;> rfl
  · rw [if_neg h0]
    by_cases h1 : task.retryCount = 1
    · rw [if_pos h1]
      rfl
    · rw [if_neg h1]
      rfl

/-- C3: the start-confirmation ladder.  For a task presented in the
start-confirmation modal: "yes" stores it as WAITING_FOR_COMPLETION
with a 10-minute follow-up window; "no" at retryCount 0 stores it as
COUNTDOWN with retryCount 1 and a 15-second window; "no" at retryCount
1 stores it as PENDING with retryCount 2 and a 60-second delay; "no" at
retryCount ≥ 2 stores it as BLOCKED; and every "no" resets the global
streak to 0. -/
theorem c3_confirm_start_ladder (s : AppState) (task : Task) (now : Nat)
    (hmem : task ∈ s.tasks)
    (_hst : task.status = TaskStatus.WAITING_FOR_START_CONFIRMATION) :
    (∃ t' ∈ (onConfirmStart s task true now).tasks,
        t'.id = task.id ∧ t'.status = TaskStatus.WAITING_FOR_COMPLETION
          ∧ t'.scheduledTime = now + 10 * 60000)
    ∧ (task.retryCount = 0 →
        ∃ t' ∈ (onConfirmStart s task false now).tasks,
          t'.id = task.id ∧ t'.status = TaskStatus.COUNTDOWN ∧ t'.retryCount = 1
            ∧ t'.scheduledTime = now + 15000)
    ∧ (task.retryCount = 1 →
        ∃ t' ∈ (onConfirmStart s task false now).tasks,
          t'.id = task.id ∧ t'.status = TaskStatus.PENDING ∧ t'.retryCount = 2
            ∧ t'.scheduledTime = now + 60000)
    ∧ (2 ≤ task.retryCount →
        ∃ t' ∈ (onConfirmStart s task false now).tasks,
          t'.id = task.id ∧ t'.status = TaskStatus.BLOCKED)
    ∧ (onConfirmStart s task false now).streak = 0 := by
  refine ⟨?_, ?_, ?_, ?_, onConfirmStart_streak_no s task now⟩
  · refine ⟨updYes now task, ?_, rfl, rfl, rfl⟩
    rw [onConfirmStart_tasks_yes]
    exact mem_updById_self hmem rfl
  · intro h0
    refine ⟨updNo0 now task, ?_, rfl, rfl, rfl, rfl⟩
    rw [onConfirmStart_tasks_no0 s task now h0]
    exact mem_updById_self hmem rfl
  · intro h1
    refine ⟨updNo1 now task, ?_, rfl, rfl, rfl, rfl⟩
    rw [onConfirmStart_tasks_no1 s task now h1]
    exact mem_updById_self hmem rfl
  · intro h2
    refine ⟨updNo2 now task, ?_, rfl, rfl⟩
    rw [onConfirmStart_tasks_no2 s task now h2]
    exact mem_updById_self hmem rfl

/-- C3 witness: the ladder instantiated on the concrete modal state
`c3State` (retryCount 0), discharging both branches that apply. -/
theorem c3_confirm_start_witness :
    (∃ t' ∈ (onConfirmStart c3State c3Task true 500).tasks,
        t'.id = c3Task.id ∧ t'.status = TaskStatus.WAITING_FOR_COMPLETION
          ∧ t'.scheduledTime = 500 + 10 * 60000)
    ∧ (∃ t' ∈ (onConfirmStart c3State c3Task false 500).tasks,
        t'.id = c3Task.id ∧ t'.status = TaskStatus.COUNTDOWN ∧ t'.retryCount = 1
          ∧ t'.scheduledTime = 500 + 15000)
    ∧ (onConfirmStart c3State c3Task false 500).streak = 0 := by
  have h := c3_confirm_start_ladder c3State c3Task 500 (by decide) (by decide)
  exact ⟨h.1, h.2.1 (by decide), h.2.2.2.2⟩

/-- C7 witness: the amended round-trip instantiated at a concrete
two-task, level-3 state. -/
theorem c7_roundtrip_witness :
    (∀ t ∈ c7GoodState.tasks, t.isParsing = false) ∧ 1 ≤ c7GoodState.level
    ∧ (loadSnapshot (saveSnapshot c7GoodState) initialState).tasks = c7GoodState.tasks
    ∧ (loadSnapshot (saveSnapshot c7GoodState) initialState).xp = c7GoodState.xp
    ∧ (loadSnapshot (saveSnapshot c7GoodState) initialState).level = c7GoodState.level
    ∧ (loadSnapshot (saveSnapshot c7GoodState) initialState).streak = c7GoodState.streak := by
  have h := c7_roundtrip_amended c7GoodState (by decide) (by decide)
  exact ⟨by decide, by decide, h.1, h.2.1, h.2.2.1, h.2.2.2⟩

/-- C8: there is a single active-modal slot, so at most one task is
presented in a blocking modal in any state; and a scheduler tick is a
no-op (no transition, no modal) whenever a task is already active or a
scheduling prompt is open. -/
theorem c8_interaction_gate (s : AppState) (now : Nat) :
    activeCount s ≤ 1
    ∧ ((s.activeTask.isSome ∨ s.schedulingTask.isSome) → tick s now = s) := by
  constructor
  · unfold activeCount
    cases s.activeTask <;> simp
  · intro h
    have hng : (s.activeTask.isNone && !s.celebrationActive && s.schedulingTask.isNone)
        = false := by
      rcases h with h | h
      · cases ha : s.activeTask
        · rw [ha] at h
          simp at h
        · simp [ha]
      · cases hs : s.schedulingTask
        · rw [hs] at h
          simp at h
        · simp [hs]
    unfold tick
    rw [hng]
    rfl

/-- C8 witness: with `c8State`'s modal open, the tick leaves the state
untouched. -/
theorem c8_interaction_gate_witness :
    activeCount c8State ≤ 1 ∧ tick c8State 2000 = c8State := by
  have h := c8_interaction_gate c8State 2000
  exact ⟨h.1, h.2 (Or.inl (by decide))⟩

/-! Preservation of "no task is COMPLETED" through every operation. -/

theorem noCompleted_filter {l : List Task} {p : Task → Bool} (h : noCompleted l) :
    noCompleted (l.filter p) :=
  fun t ht => h t (List.mem_of_mem_filter ht)

theorem noCompleted_append_single {l : List Task} {t : Task}
    (h : noCompleted l) (ht : t.status ≠ TaskStatus.COMPLETED) :
    noCompleted (l ++ [t]) := by
  intro x hx
  rcases List.mem_append.1 hx with hx | hx
  · exact h x hx
  · rw [List.mem_singleton.1 hx]
    exact ht

theorem noCompleted_updById {l : List Task} {i : Nat} {g : Task → Task}
    (hg : ∀ x, x.status ≠ TaskStatus.COMPLETED → (g x).status ≠ TaskStatus.COMPLETED)
    (h : noCompleted l) : noCompleted (updById i g l) := by
  intro t ht
  rcases List.mem_map.1 ht with ⟨a, ha, rfl⟩
  by_cases hc : a.id = i
  · simpa [hc] using hg a (h a ha)
  · simpa [hc] using h a ha

theorem noCompleted_updateTaskStatus {s : AppState} {i : Nat} {f : Task → Task} {now : Nat}
    (hf : ∀ x, x.status ≠ TaskStatus.COMPLETED → (f x).status ≠ TaskStatus.COMPLETED)
    (h : noCompleted s.tasks) : noCompleted (updateTaskStatus s i f now).tasks := by
  refine noCompleted_updById ?_ h
  intro x hx
  exact hf x hx

theorem noCompleted_addTask {s : AppState} {raw : String} {ct : Option Nat} {newId : Nat}
    {ai : AIOutcome} {img : Option String} {now : Nat} (h : noCompleted s.tasks) :
    noCompleted (addTask s raw ct newId ai img now).tasks := by
  have hbase : noCompleted (s.tasks ++ [newTaskRec newId raw now]) :=
    noCompleted_append_single h (fun hcon => TaskStatus.noConfusion hcon)
  unfold addTask
  split
  · exact hbase
  · refine noCompleted_updById (fun _ hx => hx) ?_
    refine noCompleted_updById (fun _ hx => hx) ?_
    split
    · exact hbase
    · exact hbase

theorem noCompleted_handleInitialTrigger {s : AppState} (task : Task) (now : Nat)
    (h : noCompleted s.tasks) : noCompleted (handleInitialTrigger s task now).tasks := by
  unfold handleInitialTrigger
  split
  · exact h
  · exact noCompleted_updateTaskStatus (fun _ _ hcon => TaskStatus.noConfusion hcon) h

theorem noCompleted_tickC {s : AppState} (now : Nat) (h : noCompleted s.tasks) :
    noCompleted (tickC s now).tasks := by
  unfold tickC
  split
  · exact noCompleted_updateTaskStatus (fun _ _ hcon => TaskStatus.noConfusion hcon) h
  · exact h

theorem noCompleted_tickCW {s : AppState} (now : Nat) (h : noCompleted s.tasks) :
    noCompleted (tickCW s now).tasks := by
  unfold tickCW
  split
  · exact noCompleted_tickC now h
  · exact noCompleted_tickC now h

theorem noCompleted_tick {s : AppState} (now : Nat) (h : noCompleted s.tasks) :
    noCompleted (tick s now).tasks := by
  unfold tick
  split
  · split
    · exact noCompleted_handleInitialTrigger _ now h
    · exact noCompleted_tickCW now h
  · exact h

theorem noCompleted_onConfirmStart {s : AppState} (task : Task) (started : Bool) (now : Nat)
    (h : noCompleted s.tasks) : noCompleted (onConfirmStart s task started now).tasks := by
  cases started
  · by_cases h0 : task.retryCount = 0
    · rw [onConfirmStart_tasks_no0 s task now h0]
      exact noCompleted_updById (fun _ _ hcon => TaskStatus.noConfusion hcon) h
    · by_cases h1 : task.retryCount = 1
      · rw [onConfirmStart_tasks_no1 s task now h1]
        exact noCompleted_updById (fun _ _ hcon => TaskStatus.noConfusion hcon) h
      · rw [onConfirmStart_tasks_no2 s task now (by omega)]
        exact noCompleted_updById (fun _ _ hcon => TaskStatus.noConfusion hcon) h
  · rw [onConfirmStart_tasks_yes]
    exact noCompleted_updById (fun _ _ hcon => TaskStatus.noConfusion hcon) h

theorem noCompleted_onConfirmCompletion {s : AppState} (task : Task) (completed : Bool)
    (now : Nat) (h : noCompleted s.tasks) :
    noCompleted (onConfirmCompletion s task completed now).tasks := by
  unfold onConfirmCompletion
  split
  · refine noCompleted_filter ?_
    rw [triggerCelebration_tasks]
    exact h
  · exact noCompleted_handleInitialTrigger task now h

theorem noCompleted_dismissModal {s : AppState} (now : Nat) (h : noCompleted s.tasks) :
    noCompleted (dismissModal s now).tasks := by
  unfold dismissModal
  split
  · exact noCompleted_updateTaskStatus (fun _ hx => hx) h
  · exact h

theorem noCompleted_snoozeTask {s : AppState} (task : Task) (now : Nat)
    (h : noCompleted s.tasks) : noCompleted (snoozeTask s task now).tasks :=
  noCompleted_updateTaskStatus (fun _ _ hcon => TaskStatus.noConfusion hcon) h

theorem noCompleted_handleHelpSubmit {s : AppState} (newId : Nat) (ai : AIOutcome)
    (img : Option String) (now : Nat) (h : noCompleted s.tasks) :
    noCompleted (handleHelpSubmit s newId ai img now).tasks := by
  unfold handleHelpSubmit
  split
  · exact h
  · split
    · exact h
    · cases ai
      · exact noCompleted_addTask h
      · exact noCompleted_updateTaskStatus (fun _ _ hcon => TaskStatus.noConfusion hcon)
          (noCompleted_addTask h)
      · exact noCompleted_updateTaskStatus (fun _ _ hcon => TaskStatus.noConfusion hcon)
          (noCompleted_addTask h)
      · exact noCompleted_updateTaskStatus (fun _ _ hcon => TaskStatus.noConfusion hcon)
          (noCompleted_addTask h)

theorem noCompleted_runAddTasks (subs : List SubSpec) :
    ∀ (s : AppState) (now : Nat), noCompleted s.tasks →
      noCompleted (runAddTasks s subs now).1.tasks := by
  induction subs with
  | nil => exact fun s now h => h
  | cons sub rest ih =>
    intro s now h
    unfold runAddTasks
    split
    · exact noCompleted_addTask h
    · exact ih _ now (noCompleted_addTask h)

theorem noCompleted_handleDecompose {s : AppState} (subs : List SubSpec) (now : Nat)
    (h : noCompleted s.tasks) : noCompleted (handleDecompose s subs now).tasks := by
  unfold handleDecompose
  split
  · exact h
  · next active _ =>
    split
    · exact h
    · split
      · next s2 heq =>
        have hh := noCompleted_runAddTasks subs
          { s with tasks := s.tasks.filter fun t => t.id ≠ active.id } now
          (noCompleted_filter h)
        rw [heq] at hh
        exact hh
      · next s2 heq =>
        have hh := noCompleted_runAddTasks subs
          { s with tasks := s.tasks.filter fun t => t.id ≠ active.id } now
          (noCompleted_filter h)
        rw [heq] at hh
        exact hh

theorem noCompleted_setTaskSchedule {s : AppState} (minutes : Option Nat) (now : Nat)
    (h : noCompleted s.tasks) : noCompleted (setTaskSchedule s minutes now).tasks := by
  unfold setTaskSchedule
  split
  · exact h
  · exact noCompleted_updById (fun _ hx => hx) h

theorem noCompleted_handleCustomSchedule {s : AppState} (time : Nat)
    (h : noCompleted s.tasks) : noCompleted (handleCustomSchedule s time).tasks := by
  unfold handleCustomSchedule
  split
  · exact h
  · exact noCompleted_updById (fun _ hx => hx) h

theorem noCompleted_step {s s' : AppState} (hs : Step s s') (h : noCompleted s.tasks) :
    noCompleted s'.tasks := by
  cases hs with
  | tick now => exact noCompleted_tick now h
  | add raw customTime newId ai img now => exact noCompleted_addTask h
  | confirmStart a started now _ => exact noCompleted_onConfirmStart a started now h
  | confirmCompletion a completed now _ => exact noCompleted_onConfirmCompletion a completed now h
  | dismiss now => exact noCompleted_dismissModal now h
  | snooze a now _ => exact noCompleted_snoozeTask a now h
  | help newId ai img now => exact noCompleted_handleHelpSubmit newId ai img now h
  | decompose subs now => exact noCompleted_handleDecompose subs now h
  | schedule minutes now => exact noCompleted_setTaskSchedule minutes now h
  | customSchedule time => exact noCompleted_handleCustomSchedule time h
  | remove i => exact noCompleted_filter h
  | setHelp txt => exact h
  | celebEnd => exact h
  | click t now _ => exact noCompleted_handleInitialTrigger t now h

/-- C9: in every state reachable from the mount state through the
application's own operations, no stored task carries the COMPLETED
status: confirming completion deletes the task instead of marking it,
and no operation ever writes COMPLETED. -/
theorem c9_completed_unreachable (s : AppState) (hr : Reachable s) :
    noCompleted s.tasks := by
  induction hr with
  | init => intro t ht; cases ht
  | step _ hstep ih => exact noCompleted_step hstep ih

/-- C9 witness: the invariant evaluated on the concrete reachable state
reached by one `addTask` from mount. -/
theorem c9_completed_witness : noCompleted c9Demo.tasks :=
  c9_completed_unreachable c9Demo
    (Reachable.step Reachable.init
      (Step.add initialState "wash dishes" none 5 AIOutcome.malformedText none 0))

/-! The tick never touches a BLOCKED task. -/

theorem dueP_status {now : Nat} {t : Task} (h : dueP now t = true) :
    t.status = TaskStatus.PENDING := by
  simp only [dueP, Bool.and_eq_true, beq_iff_eq, decide_eq_true_eq] at h
  exact h.1.1.1

theorem dueC_status {now : Nat} {t : Task} (h : dueC now t = true) :
    t.status = TaskStatus.COUNTDOWN := by
  simp only [dueC, Bool.and_eq_true, beq_iff_eq, decide_eq_true_eq] at h
  exact h.1

theorem mem_tick_of_blocked {s : AppState} {t : Task} (now : Nat)
    (hnodup : (s.tasks.map Task.id).Nodup) (hmem : t ∈ s.tasks)
    (hb : t.status = TaskStatus.BLOCKED) : t ∈ (tick s now).tasks := by
  unfold tick
  split
  · split
    · next p hp =>
      have hpmem := List.mem_of_find?_eq_some hp
      have hps := dueP_status (List.find?_some hp)
      have hne : t.id ≠ p.id := by
        intro hid
        have heq := List.inj_on_of_nodup_map hnodup hmem hpmem hid
        rw [heq, hps] at hb
        exact absurd hb (by decide)
      unfold handleInitialTrigger
      split
      · exact hmem
      · exact mem_updById_of_ne hmem hne
    · have hc : t ∈ (tickC s now).tasks := by
        unfold tickC
        split
        · next c hcq =>
          have hcmem := List.mem_of_find?_eq_some hcq
          have hcs := dueC_status (List.find?_some hcq)
          have hne : t.id ≠ c.id := by
            intro hid
            have heq := List.inj_on_of_nodup_map hnodup hmem hcmem hid
            rw [heq, hcs] at hb
            exact absurd hb (by decide)
          exact mem_updById_of_ne hmem hne
        · exact hmem
      unfold tickCW
      split
      · exact hc
      · exact hc
  · exact hmem

theorem tick_ids (s : AppState) (now : Nat) :
    (tick s now).tasks.map Task.id = s.tasks.map Task.id := by
  unfold tick
  split
  · split
    · unfold handleInitialTrigger
      split
      · rfl
      · exact map_id_updById _ _ _ (fun x => rfl)
    · have hc : (tickC s now).tasks.map Task.id = s.tasks.map Task.id := by
        unfold tickC
        split
        · exact map_id_updById _ _ _ (fun x => rfl)
        · rfl
      unfold tickCW
      split
      · exact hc
      · exact hc
  · rfl

theorem mem_foldl_tick_of_blocked (nows : List Nat) :
    ∀ (s : AppState) (t : Task), (s.tasks.map Task.id).Nodup → t ∈ s.tasks →
      t.status = TaskStatus.BLOCKED → t ∈ (nows.foldl tick s).tasks := by
  induction nows with
  | nil => exact fun s t _ hmem _ => hmem
  | cons n ns ih =>
    intro s t hnodup hmem hb
    have h1 := mem_tick_of_blocked n hnodup hmem hb
    have h2 : ((tick s n).tasks.map Task.id).Nodup := by
      rw [tick_ids]
      exact hnodup
    exact ih (tick s n) t h2 h1 hb

theorem dismissModal_ids (s : AppState) (now : Nat) :
    (dismissModal s now).tasks.map Task.id = s.tasks.map Task.id := by
  unfold dismissModal
  split
  · exact map_id_updById _ _ _ (fun x => rfl)
  · rfl

theorem dismissModal_blocked {s : AppState} {t : Task} (now : Nat) (hmem : t ∈ s.tasks)
    (hb : t.status = TaskStatus.BLOCKED) :
    ∃ t' ∈ (dismissModal s now).tasks, t'.id = t.id ∧ t'.status = TaskStatus.BLOCKED := by
  unfold dismissModal
  split
  · next a _ =>
    by_cases hc : t.id = a.id
    · exact ⟨_, mem_updById_self hmem hc, rfl, hb⟩
    · exact ⟨t, mem_updById_of_ne hmem hc, rfl, hb⟩
  · exact ⟨t, hmem, rfl, hb⟩

/-- C10: the tick's three search branches select only PENDING,
COUNTDOWN and WAITING_FOR_COMPLETION tasks, so (with distinct task ids)
a BLOCKED task survives any sequence of ticks as the very same record;
and after its modal is dismissed (which only sets `modalDismissed`) it
still sits in the store as BLOCKED through every further tick, until
some direct user action targets it. -/
theorem c10_blocked_never_ticked (s : AppState) (t : Task) (now : Nat) (nows : List Nat)
    (hnodup : (s.tasks.map Task.id).Nodup) (hmem : t ∈ s.tasks)
    (hb : t.status = TaskStatus.BLOCKED) :
    t ∈ (nows.foldl tick s).tasks
    ∧ ∃ t' ∈ (nows.foldl tick (dismissModal s now)).tasks,
        t'.id = t.id ∧ t'.status = TaskStatus.BLOCKED := by
  refine ⟨mem_foldl_tick_of_blocked nows s t hnodup hmem hb, ?_⟩
  obtain ⟨t', ht', hid, hbs⟩ := dismissModal_blocked now hmem hb
  have hnd : ((dismissModal s now).tasks.map Task.id).Nodup := by
    rw [dismissModal_ids]
    exact hnodup
  exact ⟨t', mem_foldl_tick_of_blocked nows _ t' hnd ht' hbs, hid, hbs⟩

/-- C10 witness: the blocked task of `c10State` survives three ticks
unchanged, and still sits BLOCKED after a dismissal followed by three
ticks (during which the due COUNTDOWN task does fire). -/
theorem c10_blocked_witness :
    c10Blocked ∈ (([300, 1300, 2300] : List Nat).foldl tick c10State).tasks
    ∧ ∃ t' ∈ (([300, 1300, 2300] : List Nat).foldl tick (dismissModal c10State 200)).tasks,
        t'.id = c10Blocked.id ∧ t'.status = TaskStatus.BLOCKED :=
  c10_blocked_never_ticked c10State c10Blocked 200 [300, 1300, 2300]
    (by decide) (by decide) (by decide)

end Bearly
